import Mathlib

/-!
Verification of the computer-performance-calculator core
(`src/core/performance_calculator.py`, `src/core/model.py`,
`src/core/utils.py`, `src/app.py`) against its specification.

Python integers are embedded as `ℤ` (they are arbitrary precision) and
float64 values as `ℚ`: every floating-point expression the code builds is
embedded by the exact rational value of the same expression evaluated in
real arithmetic, with the accumulation order of the source preserved by
using left folds over the same iteration sequence.
-/

namespace PerfCalc

/-- Python `range(start, stop)` over integers, as the list
`[start, start+1, ..., stop-1]` (empty when `stop ≤ start`). -/
def pyRange (start stop : ℤ) : List ℤ :=
  (List.range (stop - start).toNat).map (fun (t : ℕ) => start + (t : ℤ))

/-- Embedding of `PerformanceCalculator.calculate_chunk`
(performance_calculator.py lines 16-21): `result = 0.0`, then
`for k in range(start, end + 1): result += 1.0 / (k * k)`. -/
def calculate_chunk (start stop : ℤ) : ℚ :=
  (pyRange start (stop + 1)).foldl (fun (result : ℚ) (k : ℤ) => result + 1 / ((k : ℚ) * (k : ℚ))) 0

/-- Embedding of the `PerformanceMetrics` dataclass (utils.py lines 6-17). -/
structure PerformanceMetrics where
  timestamp : String
  lower_bound : ℤ
  upper_bound : ℤ
  processing_mode : String
  execution_time : ℚ
  cpu_time : ℚ
  memory_usage : ℚ
  cpu_utilization : ℚ
  result_value : ℚ
  cores_used : ℤ := 1
deriving DecidableEq

/-- Instrumentation readings taken by one strategy invocation: the values
returned by `time.time()`, `time.process_time()`,
`tracemalloc.get_traced_memory()`, `psutil` CPU sampling and
`os.cpu_count()` during that invocation.  The strategies are embedded as
functions of these readings, so that the data flow from readings to
metrics fields is explicit. -/
structure Instr where
  timestamp : String
  startWall : ℚ
  endWall : ℚ
  startCpu : ℚ
  endCpu : ℚ
  peakMemory : ℚ
  cpuPercentStart : ℚ
  cpuPercentEnd : ℚ
  cpuCount : ℕ
deriving DecidableEq

/-- Embedding of `calculate_sequential` (performance_calculator.py lines
24-60).  The computation loop (lines 35-37) is textually the body of
`calculate_chunk`. -/
def calculate_sequential (env : Instr) (i j : ℤ) : PerformanceMetrics where
  timestamp := env.timestamp
  lower_bound := i
  upper_bound := j
  processing_mode := "sequential"
  execution_time := env.endWall - env.startWall
  cpu_time := env.endCpu - env.startCpu
  memory_usage := env.peakMemory / 1024 / 1024
  cpu_utilization := max env.cpuPercentStart env.cpuPercentEnd
  result_value := (pyRange i (j + 1)).foldl (fun (result : ℚ) (k : ℤ) => result + 1 / ((k : ℚ) * (k : ℚ))) 0
  cores_used := 1

/-- Worker cap `min(os.cpu_count(), 8)` (performance_calculator.py lines
66 and 118). -/
def numWorkers (cpuCount : ℕ) : ℕ := min cpuCount 8

/-- Chunk size `max(1, total_range // num_threads)` with
`total_range = j - i + 1` (performance_calculator.py lines 75-76 and
131-132); Python `//` is floor division, `Int.fdiv`. -/
def chunk_size (i j : ℤ) (n : ℕ) : ℤ := max 1 ((j - i + 1).fdiv (n : ℤ))

/-- Chunks submitted by the loops at performance_calculator.py lines
84-88 and 138-144: for `t` in `range(n)`, `chunk_start = i + t * chunk_size`,
`chunk_end = min(chunk_start + chunk_size - 1, j)`, submitted only when
`chunk_start <= j`, in ascending `t` order. -/
def chunkList (i j : ℤ) (n : ℕ) : List (ℤ × ℤ) :=
  (List.range n).filterMap (fun (t : ℕ) =>
    let cs := chunk_size i j n
    let chunk_start := i + (t : ℤ) * cs
    if chunk_start ≤ j then some (chunk_start, min (chunk_start + cs - 1) j) else none)

/-- Aggregated value of `calculate_threading` (performance_calculator.py
lines 81-91): each submitted future runs `worker`, which calls
`calculate_chunk`, and the results are added to `result` in submission
order (the `futures` list order). -/
def threadResult (i j : ℤ) (n : ℕ) : ℚ :=
  (chunkList i j n).foldl (fun result c => result + calculate_chunk c.1 c.2) 0

/-- Embedding of `calculate_threading` (performance_calculator.py lines
62-112). -/
def calculate_threading (env : Instr) (i j : ℤ) : PerformanceMetrics where
  timestamp := env.timestamp
  lower_bound := i
  upper_bound := j
  processing_mode := "threading"
  execution_time := env.endWall - env.startWall
  cpu_time := env.endCpu - env.startCpu
  memory_usage := env.peakMemory / 1024 / 1024
  cpu_utilization := max env.cpuPercentStart env.cpuPercentEnd
  result_value := threadResult i j (numWorkers env.cpuCount)
  cores_used := (numWorkers env.cpuCount : ℤ)

/-- Embedding of the worker body `cpu_bound_task` of
`calculate_multiprocessing` (performance_calculator.py lines 125-129):
the same ascending loop as `calculate_chunk`, whose result the worker
appends to the managed list. -/
def cpu_bound_task (start stop : ℤ) : ℚ :=
  (pyRange start (stop + 1)).foldl (fun (res : ℚ) (k : ℤ) => res + 1 / ((k : ℚ) * (k : ℚ))) 0

/-- Contents of the managed `result_list` after all joins
(performance_calculator.py lines 134-147), when the workers append their
results in the order given by `arrival`: `arrival` lists chunk indices in
worker-completion order (a permutation of the chunk indices).  Each entry
is the partial sum of the corresponding chunk. -/
def resultList (i j : ℤ) (n : ℕ) (arrival : List ℕ) : List ℚ :=
  arrival.filterMap (fun t => ((chunkList i j n)[t]?).map (fun c => cpu_bound_task c.1 c.2))

/-- Aggregated value `result = sum(result_list)` of
`calculate_multiprocessing` (performance_calculator.py line 149). -/
def mpResult (i j : ℤ) (n : ℕ) (arrival : List ℕ) : ℚ :=
  (resultList i j n arrival).sum

/-- Embedding of `calculate_multiprocessing` (performance_calculator.py
lines 114-171); `arrival` is the worker-completion order of the run. -/
def calculate_multiprocessing (env : Instr) (arrival : List ℕ) (i j : ℤ) : PerformanceMetrics where
  timestamp := env.timestamp
  lower_bound := i
  upper_bound := j
  processing_mode := "multiprocessing"
  execution_time := env.endWall - env.startWall
  cpu_time := env.endCpu - env.startCpu
  memory_usage := env.peakMemory / 1024 / 1024
  cpu_utilization := max env.cpuPercentStart env.cpuPercentEnd
  result_value := mpResult i j (numWorkers env.cpuCount) arrival
  cores_used := (numWorkers env.cpuCount : ℤ)

/-- Embedding of the `CalculationRequest` pydantic model (model.py lines
4-7), before validation: the raw field values of an incoming request. -/
structure CalculationRequest where
  lower_bound : ℤ
  upper_bound : ℤ
  processing_mode : String
deriving DecidableEq

/-- Regex `^(sequential|threading|multiprocessing)$` on `processing_mode`
(model.py line 7). -/
def validMode (m : String) : Bool :=
  m == "sequential" || m == "threading" || m == "multiprocessing"

/-- HTTP error response: status code and detail message, as raised by
`HTTPException` in app.py or by FastAPI request validation. -/
structure HttpError where
  status_code : ℕ
  detail : String
deriving DecidableEq

/-- Embedding of the body of the `/api/calculate` handler
`calculate_performance` (app.py lines 41-58), reached only by requests
that passed pydantic field validation. -/
def calculate_performance_handler (env : Instr) (arrival : List ℕ) (r : CalculationRequest) :
    Except HttpError PerformanceMetrics :=
  if r.upper_bound ≤ r.lower_bound then
    .error ⟨400, "Upper bound must be greater than lower bound"⟩
  else if r.upper_bound - r.lower_bound > 10000000 then
    .error ⟨400, "Range too large. Maximum range is 10 million"⟩
  else if r.processing_mode = "sequential" then
    .ok (calculate_sequential env r.lower_bound r.upper_bound)
  else if r.processing_mode = "threading" then
    .ok (calculate_threading env r.lower_bound r.upper_bound)
  else if r.processing_mode = "multiprocessing" then
    .ok (calculate_multiprocessing env arrival r.lower_bound r.upper_bound)
  else .error ⟨400, "Invalid processing mode"⟩

/-- Full endpoint behaviour of `POST /api/calculate`: FastAPI first runs
pydantic validation of `CalculationRequest` (model.py: `lower_bound ≥ 1`
and the `processing_mode` regex; a failure is answered with a 422
validation error and the handler never runs), then runs the handler body
(app.py lines 41-58). -/
def calculate_performance (env : Instr) (arrival : List ℕ) (r : CalculationRequest) :
    Except HttpError PerformanceMetrics :=
  if 1 ≤ r.lower_bound ∧ validMode r.processing_mode = true then
    calculate_performance_handler env arrival r
  else .error ⟨422, "request validation failed"⟩

/-- Fixed instrumentation readings used to instantiate theorems about
the strategies on concrete inputs. -/
def testEnv : Instr where
  timestamp := "2024-01-01T00:00:00"
  startWall := 0
  endWall := 1
  startCpu := 0
  endCpu := 1
  peakMemory := 1024
  cpuPercentStart := 0
  cpuPercentEnd := 0
  cpuCount := 8

deriving instance DecidableEq for Except

/-! Helper lemmas shared by the claim theorems. -/

/-- An accumulating left fold of additions is the starting value plus the
sum of the mapped list. -/
theorem foldl_add_eq {α : Type} (g : α → ℚ) (l : List α) (c : ℚ) :
    l.foldl (fun acc k => acc + g k) c = c + (l.map g).sum := by
  induction l generalizing c with
  | nil => simp
  | cons a l ih => simp [ih, add_assoc]

/-- List sum over `List.range` agrees with the `Finset.range` sum. -/
theorem sum_map_range (g : ℕ → ℚ) (n : ℕ) :
    ((List.range n).map g).sum = ∑ t in Finset.range n, g t := by
  induction n with
  | zero => simp
  | succ n ih =>
    rw [List.range_succ, Finset.sum_range_succ, List.map_append, List.sum_append, ih]
    simp

/-- Reading every position of a list in index order through `getElem?`
recovers the mapped list. -/
theorem filterMap_getElem_range {α β : Type} (l : List α) (f : α → β) :
    (List.range l.length).filterMap (fun t => (l[t]?).map f) = l.map f := by
  induction l with
  | nil => rfl
  | cons a l ih =>
    simp only [List.length_cons, List.range_succ_eq_map, List.filterMap_cons,
      List.getElem?_cons_zero, Option.map_some', List.filterMap_map, List.map_cons]
    refine congrArg (f a :: ·) ?_
    rw [← ih]
    exact List.filterMap_congr (fun t _ => by simp [Function.comp])

/-- The chunk reducer equals the exact interval sum of `1/k²`. -/
theorem calculate_chunk_eq_sum (s e : ℤ) :
    calculate_chunk s e = ∑ k in Finset.Icc s e, 1 / ((k : ℚ) * (k : ℚ)) := by
  rw [calculate_chunk, foldl_add_eq, zero_add, pyRange, List.map_map, sum_map_range,
    Int.Icc_eq_finset_map, Finset.sum_map]
  rfl

/-- The threaded aggregate is the sum of the reducer over the chunk list
in chunk-index order. -/
theorem threadResult_eq_sum (i j : ℤ) (n : ℕ) :
    threadResult i j n = ((chunkList i j n).map (fun c => calculate_chunk c.1 c.2)).sum := by
  rw [threadResult, foldl_add_eq, zero_add]

/-- Evaluation of the reducer on a singleton chunk. -/
theorem calculate_chunk_singleton (k : ℤ) : calculate_chunk k k = 1 / ((k : ℚ) * (k : ℚ)) := by
  rw [calculate_chunk, pyRange, show k + 1 - k = 1 by ring,
    show List.range (1 : ℤ).toNat = [0] from rfl]
  norm_num

/-- Exact value of the reducer on the range `[1, 10]`. -/
theorem calculate_chunk_one_ten : calculate_chunk 1 10 = 1968329 / 1270080 := by
  rw [calculate_chunk,
    show pyRange 1 (10 + 1) = [1, 2, 3, 4, 5, 6, 7, 8, 9, 10] by decide]
  norm_num [List.foldl_cons, List.foldl_nil]

/-- Exact value of the threaded aggregate on `[1, 10]` with 8 workers:
the sum of `1/k²` over `k = 1..8` only. -/
theorem threadResult_one_ten : threadResult 1 10 8 = 1077749 / 705600 := by
  rw [threadResult,
    show chunkList 1 10 8 =
      [(1, 1), (2, 2), (3, 3), (4, 4), (5, 5), (6, 6), (7, 7), (8, 8)] by decide]
  norm_num [List.foldl_cons, List.foldl_nil, calculate_chunk_singleton]

/-- Exact value of the threaded aggregate on `[1, 1]` with 8 workers. -/
theorem threadResult_one_one : threadResult 1 1 8 = 1 := by
  rw [threadResult, show chunkList 1 1 8 = [(1, 1)] by decide]
  norm_num [List.foldl_cons, List.foldl_nil, calculate_chunk_singleton]

/-- The multiprocessing aggregate over any worker-completion order that
is a permutation of the chunk indices equals the threaded aggregate: in
exact arithmetic, summing the managed list is completion-order
independent. -/
theorem mpResult_perm_eq (i j : ℤ) (n : ℕ) (arrival : List ℕ)
    (h : arrival.Perm (List.range (chunkList i j n).length)) :
    mpResult i j n arrival = threadResult i j n := by
  have h2 := h.filterMap (fun t => ((chunkList i j n)[t]?).map (fun c => cpu_bound_task c.1 c.2))
  rw [filterMap_getElem_range] at h2
  rw [mpResult, resultList, h2.sum_eq, threadResult_eq_sum]
  rfl

/-! Claim theorems. -/

/-- C1 (code bug): the partitioning step of the threaded and
multiprocessing strategies does NOT cover the range.  At
`lower = 1, upper = 10, N = 8` workers, the produced chunks are the
singletons `[1,1] .. [8,8]`: no chunk contains 9 or 10, so the union of
the chunks is `[1,8]`, not `[1,10]` — the trailing `total mod N` elements
are dropped. -/
theorem C1_coverage_violation :
    chunkList 1 10 8 =
      [(1, 1), (2, 2), (3, 3), (4, 4), (5, 5), (6, 6), (7, 7), (8, 8)] ∧
    (∀ c ∈ chunkList 1 10 8, ¬ (c.1 ≤ 9 ∧ 9 ≤ c.2)) ∧
    (∀ c ∈ chunkList 1 10 8, ¬ (c.1 ≤ 10 ∧ 10 ≤ c.2)) := by
  decide

/-- C2 (code bug): at `lower = 1, upper = 10` with 8 CPUs (so 8 workers),
the threaded and multiprocessing results — which sum `1/k²` over
`k = 1..8` only, the tail being dropped by the partitioning — do NOT
agree with the sequential result to within a relative error of `1e-9`:
already in exact arithmetic the relative deviation is about `1.4e-2`. -/
theorem C2_agreement_violation :
    ¬ (|(calculate_sequential testEnv 1 10).result_value -
          (calculate_threading testEnv 1 10).result_value| <
        1 / 1000000000 * |(calculate_sequential testEnv 1 10).result_value|) ∧
    ¬ (|(calculate_sequential testEnv 1 10).result_value -
          (calculate_multiprocessing testEnv (List.range 8) 1 10).result_value| <
        1 / 1000000000 * |(calculate_sequential testEnv 1 10).result_value|) := by
  have hseq : (calculate_sequential testEnv 1 10).result_value = calculate_chunk 1 10 := rfl
  have hthr : (calculate_threading testEnv 1 10).result_value = threadResult 1 10 8 := rfl
  have hmp : (calculate_multiprocessing testEnv (List.range 8) 1 10).result_value =
      mpResult 1 10 8 (List.range 8) := rfl
  have hmp2 : mpResult 1 10 8 (List.range 8) = threadResult 1 10 8 := by
    refine mpResult_perm_eq 1 10 8 (List.range 8) ?_
    rw [show (chunkList 1 10 8).length = 8 by decide]
  rw [hseq, hthr, hmp, hmp2, calculate_chunk_one_ten, threadResult_one_ten,
    show |(1968329 : ℚ) / 1270080| = 1968329 / 1270080 from abs_of_pos (by norm_num),
    show |(1968329 : ℚ) / 1270080 - 1077749 / 705600| = 1968329 / 1270080 - 1077749 / 705600
      from abs_of_pos (by norm_num)]
  norm_num

/-- C3 (counterexample): the multiprocessing strategy does not sum its
partial results in ascending chunk-index order.  At
`lower = 1, upper = 10, N = 8`, if the worker of chunk 1 finishes before
the worker of chunk 0 (a legal completion order, a permutation of the
chunk indices), the managed result list — which the code sums as-is —
differs from the list of partial results in chunk-index order. -/
theorem C3_mp_order_counterexample :
    ([1, 0, 2, 3, 4, 5, 6, 7] : List ℕ).Perm (List.range 8) ∧
    resultList 1 10 8 [1, 0, 2, 3, 4, 5, 6, 7] ≠
      (chunkList 1 10 8).map (fun c => cpu_bound_task c.1 c.2) := by
  refine ⟨by decide, fun h => ?_⟩
  have h0 : (resultList 1 10 8 [1, 0, 2, 3, 4, 5, 6, 7])[0]? =
      ((chunkList 1 10 8).map (fun c => cpu_bound_task c.1 c.2))[0]? := by rw [h]
  have e1 : (resultList 1 10 8 [1, 0, 2, 3, 4, 5, 6, 7])[0]? = some (cpu_bound_task 2 2) := rfl
  have e2 : ((chunkList 1 10 8).map (fun c => cpu_bound_task c.1 c.2))[0]? =
      some (cpu_bound_task 1 1) := rfl
  rw [e1, e2] at h0
  have h1 := Option.some.inj h0
  have h22 : cpu_bound_task 2 2 = 1 / ((2 : ℚ) * 2) := calculate_chunk_singleton 2
  have h11 : cpu_bound_task 1 1 = 1 / ((1 : ℚ) * 1) := calculate_chunk_singleton 1
  rw [h22, h11] at h1
  norm_num at h1

/-- C3 (amended): the threaded strategy aggregates in submission
(ascending chunk-index) order, so its result is a function of the range
and worker count alone; the multiprocessing strategy sums the partials in
worker-completion order, which is only a permutation of chunk-index
order, and in exact arithmetic its aggregate is completion-order
independent and equal to the threaded aggregate. -/
theorem C3_aggregation_determinism (i j : ℤ) (n : ℕ) (arrival : List ℕ)
    (h : arrival.Perm (List.range (chunkList i j n).length)) :
    threadResult i j n = ((chunkList i j n).map (fun c => calculate_chunk c.1 c.2)).sum ∧
    mpResult i j n arrival = threadResult i j n :=
  ⟨threadResult_eq_sum i j n, mpResult_perm_eq i j n arrival h⟩

/-- Witness for C3_aggregation_determinism at `lower = 1, upper = 10,
N = 8`, completion order `[1,0,2,3,4,5,6,7]`. -/
theorem C3_aggregation_determinism_witness :
    ([1, 0, 2, 3, 4, 5, 6, 7] : List ℕ).Perm (List.range (chunkList 1 10 8).length) ∧
    (threadResult 1 10 8 = ((chunkList 1 10 8).map (fun c => calculate_chunk c.1 c.2)).sum ∧
      mpResult 1 10 8 [1, 0, 2, 3, 4, 5, 6, 7] = threadResult 1 10 8) :=
  ⟨by decide, C3_aggregation_determinism 1 10 8 [1, 0, 2, 3, 4, 5, 6, 7] (by decide)⟩

/-- C6: a sequential calculation on `[1, 10]` reports a result value
within `1e-12` of 1.5497677311665408 (the exact value is
`1968329/1270080 ≈ 1.54976773116654069`) and `cores_used = 1`. -/
theorem C6_sequential_scenario (env : Instr) :
    |(calculate_sequential env 1 10).result_value -
        15497677311665408 / 10000000000000000| < 1 / 1000000000000 ∧
    (calculate_sequential env 1 10).cores_used = 1 := by
  refine ⟨?_, rfl⟩
  have h : (calculate_sequential env 1 10).result_value = calculate_chunk 1 10 := rfl
  rw [h, calculate_chunk_one_ten, abs_sub_lt_iff]
  constructor <;> norm_num

/-- C7: a threaded calculation on `[1, 1]` with at least 8 CPUs (so an
8-way pool) schedules exactly one non-empty chunk, `[1, 1]`, and its
result value is 1. -/
theorem C7_threading_single_chunk (env : Instr) (h : 8 ≤ env.cpuCount) :
    chunkList 1 1 (numWorkers env.cpuCount) = [(1, 1)] ∧
    (calculate_threading env 1 1).result_value = 1 := by
  have hn : numWorkers env.cpuCount = 8 := min_eq_right h
  constructor
  · rw [hn]; decide
  · show threadResult 1 1 (numWorkers env.cpuCount) = 1
    rw [hn, threadResult_one_one]

/-- Witness for C7_threading_single_chunk at the fixed test environment
(8 CPUs). -/
theorem C7_threading_single_chunk_witness :
    8 ≤ testEnv.cpuCount ∧
    (chunkList 1 1 (numWorkers testEnv.cpuCount) = [(1, 1)] ∧
      (calculate_threading testEnv 1 1).result_value = 1) :=
  ⟨by decide, C7_threading_single_chunk testEnv (by decide)⟩

/-- C4: a request with `lower_bound < 1` or `upper_bound ≤ lower_bound`
is rejected by the endpoint before any strategy runs — pydantic field
validation rejects `lower_bound < 1` and the handler's first check
rejects `upper_bound ≤ lower_bound` with HTTP 400 — so no worker is
spawned, no chunk is computed and no metrics record is produced. -/
theorem C4_precondition_rejection (env : Instr) (arrival : List ℕ) (r : CalculationRequest)
    (h : r.lower_bound < 1 ∨ r.upper_bound ≤ r.lower_bound) :
    ∃ err : HttpError, calculate_performance env arrival r = .error err := by
  rw [calculate_performance]
  split_ifs with hv
  · rw [calculate_performance_handler]
    have hul : r.upper_bound ≤ r.lower_bound := by
      rcases h with h | h
      · exact absurd hv.1 (not_le.mpr h)
      · exact h
    rw [if_pos hul]
    exact ⟨_, rfl⟩
  · exact ⟨_, rfl⟩

/-- Witness for C4_precondition_rejection: the request with
`lower_bound = 0` is rejected. -/
theorem C4_precondition_rejection_witness :
    ((⟨0, 10, "sequential"⟩ : CalculationRequest).lower_bound < 1 ∨
      (⟨0, 10, "sequential"⟩ : CalculationRequest).upper_bound ≤
        (⟨0, 10, "sequential"⟩ : CalculationRequest).lower_bound) ∧
    ∃ err : HttpError, calculate_performance testEnv [] ⟨0, 10, "sequential"⟩ = .error err :=
  ⟨Or.inl (by norm_num),
    C4_precondition_rejection testEnv [] ⟨0, 10, "sequential"⟩ (Or.inl (by norm_num))⟩

/-- C5: the chunk reducer is a pure function of `(start, end)`: for
`1 ≤ start ≤ end` it returns the exact sum of `1/k²` for `k` from `start`
to `end` (embedded over `ℚ`), and its iteration sequence is strictly
increasing, i.e. the accumulation is performed in monotonically
increasing order of `k`. -/
theorem C5_chunk_reducer (s e : ℤ) (h1 : 1 ≤ s) (h2 : s ≤ e) :
    calculate_chunk s e = ∑ k in Finset.Icc s e, 1 / ((k : ℚ) * (k : ℚ)) ∧
    (pyRange s (e + 1)).Pairwise (· < ·) := by
  refine ⟨calculate_chunk_eq_sum s e, ?_⟩
  rw [pyRange, List.pairwise_map]
  exact (List.pairwise_lt_range _).imp (fun hab => by omega)

/-- Witness for C5_chunk_reducer at `start = 3, end = 5`. -/
theorem C5_chunk_reducer_witness :
    (1 : ℤ) ≤ 3 ∧ (3 : ℤ) ≤ 5 ∧
    (calculate_chunk 3 5 = ∑ k in Finset.Icc (3 : ℤ) 5, 1 / ((k : ℚ) * (k : ℚ)) ∧
      (pyRange 3 (5 + 1)).Pairwise (· < ·)) :=
  ⟨by norm_num, by norm_num, C5_chunk_reducer 3 5 (by norm_num) (by norm_num)⟩

/-- C8: every successful call of the endpoint returns a fully populated
metrics record with `execution_time ≥ 0`, `cpu_time ≥ 0`,
`memory_usage ≥ 0` and `cores_used ≥ 1`, given that the clock readings of
the invocation are monotone, the traced peak memory is nonnegative and at
least one CPU is reported; a failing call returns an error value carrying
no metrics record. -/
theorem C8_metrics_completeness (env : Instr) (arrival : List ℕ) (r : CalculationRequest)
    (m : PerformanceMetrics)
    (hw : env.startWall ≤ env.endWall) (hc : env.startCpu ≤ env.endCpu)
    (hm : 0 ≤ env.peakMemory) (hn : 1 ≤ env.cpuCount)
    (hok : calculate_performance env arrival r = .ok m) :
    0 ≤ m.execution_time ∧ 0 ≤ m.cpu_time ∧ 0 ≤ m.memory_usage ∧ 1 ≤ m.cores_used := by
  have hcores : (1 : ℤ) ≤ (numWorkers env.cpuCount : ℤ) := by
    have h8 : 1 ≤ numWorkers env.cpuCount := le_min hn (by norm_num)
    exact_mod_cast h8
  rw [calculate_performance, calculate_performance_handler] at hok
  split_ifs at hok <;>
    simp only [reduceCtorEq, Except.ok.injEq] at hok <;>
    · subst hok
      refine ⟨sub_nonneg.mpr hw, sub_nonneg.mpr hc,
        div_nonneg (div_nonneg hm (by norm_num)) (by norm_num), ?_⟩
      first
        | exact le_refl 1
        | exact hcores

/-- Witness for C8_metrics_completeness: a successful sequential call on
`[1, 10]` in the fixed test environment. -/
theorem C8_metrics_completeness_witness :
    (testEnv.startWall ≤ testEnv.endWall ∧ testEnv.startCpu ≤ testEnv.endCpu ∧
      0 ≤ testEnv.peakMemory ∧ 1 ≤ testEnv.cpuCount) ∧
    (0 ≤ (calculate_sequential testEnv 1 10).execution_time ∧
      0 ≤ (calculate_sequential testEnv 1 10).cpu_time ∧
      0 ≤ (calculate_sequential testEnv 1 10).memory_usage ∧
      1 ≤ (calculate_sequential testEnv 1 10).cores_used) :=
  ⟨⟨by norm_num [testEnv], by norm_num [testEnv], by norm_num [testEnv], by norm_num [testEnv]⟩,
    C8_metrics_completeness testEnv [] ⟨1, 10, "sequential"⟩ (calculate_sequential testEnv 1 10)
      (by norm_num [testEnv]) (by norm_num [testEnv]) (by norm_num [testEnv])
      (by norm_num [testEnv]) rfl⟩

/-- C9 (counterexample): a request whose span exceeds 10,000,000 but
whose `lower_bound` violates the pydantic field constraint `ge=1` is
rejected by request validation with a 422 error, not with the HTTP 400
"Range too large" error, so the claim does not hold of ANY request. -/
theorem C9_range_cap_counterexample :
    (⟨0, 20000001, "sequential"⟩ : CalculationRequest).upper_bound -
        (⟨0, 20000001, "sequential"⟩ : CalculationRequest).lower_bound > 10000000 ∧
    calculate_performance testEnv [] ⟨0, 20000001, "sequential"⟩ ≠
      .error ⟨400, "Range too large. Maximum range is 10 million"⟩ ∧
    calculate_performance testEnv [] ⟨0, 20000001, "sequential"⟩ =
      .error ⟨422, "request validation failed"⟩ := by
  have he : calculate_performance testEnv [] ⟨0, 20000001, "sequential"⟩ =
      .error ⟨422, "request validation failed"⟩ := rfl
  refine ⟨by norm_num, ?_, he⟩
  rw [he]
  intro h
  have h4 : (422 : ℕ) = 400 :=
    congrArg (fun x => match x with | Except.error err => err.status_code | Except.ok _ => 0) h
  norm_num at h4

/-- C9 (amended): any request whose span `upper_bound - lower_bound`
exceeds 10,000,000 is rejected before any strategy is invoked: with the
HTTP 400 "Range too large" error when the request passes pydantic field
validation, and with a 422 validation error otherwise; in either case no
calculation is started on the over-wide range. -/
theorem C9_range_cap (env : Instr) (arrival : List ℕ) (r : CalculationRequest)
    (h : r.upper_bound - r.lower_bound > 10000000) :
    (∃ err : HttpError, calculate_performance env arrival r = .error err) ∧
    (1 ≤ r.lower_bound → validMode r.processing_mode = true →
      calculate_performance env arrival r =
        .error ⟨400, "Range too large. Maximum range is 10 million"⟩) := by
  constructor
  · rw [calculate_performance]
    split_ifs with hv
    · rw [calculate_performance_handler, if_neg (by omega), if_pos h]
      exact ⟨_, rfl⟩
    · exact ⟨_, rfl⟩
  · intro hl hmode
    rw [calculate_performance, if_pos ⟨hl, hmode⟩, calculate_performance_handler,
      if_neg (by omega), if_pos h]

/-- Witness for C9_range_cap at a pydantic-valid request of span
20,000,001. -/
theorem C9_range_cap_witness :
    ((⟨1, 20000002, "sequential"⟩ : CalculationRequest).upper_bound -
        (⟨1, 20000002, "sequential"⟩ : CalculationRequest).lower_bound > 10000000) ∧
    ((∃ err : HttpError,
        calculate_performance testEnv [] ⟨1, 20000002, "sequential"⟩ = .error err) ∧
      (1 ≤ (⟨1, 20000002, "sequential"⟩ : CalculationRequest).lower_bound →
        validMode (⟨1, 20000002, "sequential"⟩ : CalculationRequest).processing_mode = true →
        calculate_performance testEnv [] ⟨1, 20000002, "sequential"⟩ =
          .error ⟨400, "Range too large. Maximum range is 10 million"⟩)) :=
  ⟨by norm_num, C9_range_cap testEnv [] ⟨1, 20000002, "sequential"⟩ (by norm_num)⟩

/-- C10: every chunk actually submitted by the partitioning loops of the
threaded and multiprocessing strategies is non-empty
(`start ≤ end`) and lies inside `[lower, upper]`, and the submitted
chunks have strictly ascending start values and are pairwise disjoint
(each chunk ends strictly before the next begins). -/
theorem C10_submitted_chunks_wellformed (i j : ℤ) (n : ℕ)
    (h1 : 1 ≤ i) (h2 : i ≤ j) (h3 : 1 ≤ n) :
    (∀ c ∈ chunkList i j n, i ≤ c.1 ∧ c.1 ≤ c.2 ∧ c.2 ≤ j) ∧
    (chunkList i j n).Pairwise (fun a b => a.1 < b.1 ∧ a.2 < b.1) := by
  have hcs : 1 ≤ chunk_size i j n := le_max_left _ _
  constructor
  · intro c hc
    simp only [chunkList, List.mem_filterMap, List.mem_range] at hc
    obtain ⟨t, -, ht⟩ := hc
    split_ifs at ht with hle
    · obtain rfl := Option.some.inj ht
      have hP : 0 ≤ (t : ℤ) * chunk_size i j n :=
        mul_nonneg (Int.natCast_nonneg t) (by linarith)
      refine ⟨?_, ?_, ?_⟩
      · dsimp only
        linarith
      · dsimp only
        exact le_min (by linarith) hle
      · dsimp only
        exact min_le_right _ _
  · rw [chunkList]
    refine List.Pairwise.filterMap _ ?_ (List.pairwise_lt_range n)
    intro a b hab x hx y hy
    simp only [Option.mem_def] at hx hy
    split_ifs at hx hy with ha hb
    · simp only [Option.some.injEq] at hx hy
      subst hx
      subst hy
      have hcast : (a : ℤ) + 1 ≤ (b : ℤ) := by exact_mod_cast hab
      have hmul : ((a : ℤ) + 1) * chunk_size i j n ≤ (b : ℤ) * chunk_size i j n :=
        mul_le_mul_of_nonneg_right hcast (by linarith)
      rw [add_mul, one_mul] at hmul
      constructor
      · show i + (a : ℤ) * chunk_size i j n < i + (b : ℤ) * chunk_size i j n
        linarith
      · show min (i + (a : ℤ) * chunk_size i j n + chunk_size i j n - 1) j <
          i + (b : ℤ) * chunk_size i j n
        exact lt_of_le_of_lt (min_le_left _ _) (by linarith)

/-- Witness for C10_submitted_chunks_wellformed at
`lower = 1, upper = 10, N = 8`. -/
theorem C10_submitted_chunks_wellformed_witness :
    ((1 : ℤ) ≤ 1 ∧ (1 : ℤ) ≤ 10 ∧ 1 ≤ 8) ∧
    ((∀ c ∈ chunkList 1 10 8, 1 ≤ c.1 ∧ c.1 ≤ c.2 ∧ c.2 ≤ 10) ∧
      (chunkList 1 10 8).Pairwise (fun a b => a.1 < b.1 ∧ a.2 < b.1)) :=
  ⟨⟨le_refl 1, by norm_num, by norm_num⟩,
    C10_submitted_chunks_wellformed 1 10 8 (le_refl 1) (by norm_num) (by norm_num)⟩

end PerfCalc
